import Mathlib

/-!
Verification development for the `@synerity/charts` export pipeline and
scatter-plot analytics (ExportManager, ScatterPlot, PieChart).

Shallow embedding conventions:
* JS numbers are modelled as `Rat` where real-valued arithmetic occurs
  (regression, clustering, raster geometry) and as `Int` in the CSV datum
  model, where only integer values are ever stringified (JS prints an
  integral number without a decimal point, matching `toString : Int → String`).
* JS division is modelled by `Rat` division.  At a zero denominator JS
  produces `NaN`/`Infinity` while `Rat` division yields `0`; no theorem
  below depends on the value of a division at a zero denominator.
* A record field that may be absent (`color?: string`) is an `Option`;
  the JS test `'x' in d` becomes `d.x.isSome`, and the JS idiom
  `d.color || ''` becomes `d.color.getD ""` (both map `undefined` and the
  empty string to the empty string).
* DOM side effects are reified: appended SVG children become values in a
  list, `console.warn`/`console.error` become strings accumulated in the
  result, a triggered download becomes a `(content, filename, mime)` triple,
  and a thrown `Error` becomes `Except.error` of its message.
-/

namespace Charts

/-! ## CSV export (`ExportManager.exportCSV`, src/src/export-manager.ts:205-235)

The TS signature is `exportCSV(data: ChartData[] | ScatterData[], filename?)`.
At runtime the function duck-types each record, so the datum model carries
every field either shape may have, each optional, mirroring the dynamic view
`{x?, y?, label?, value?, color?}` the code actually interrogates. -/

structure CsvDatum where
  x : Option Int
  y : Option Int
  label : Option String
  value : Option Int
  color : Option String
deriving Repr, DecidableEq

/-- JS template interpolation of a possibly-`undefined` number field
(`${d.x}` prints `undefined` when the field is absent). -/
def jsShowNum (o : Option Int) : String :=
  match o with
  | some n => toString n
  | none => "undefined"

/-- JS template interpolation of a possibly-`undefined` string field
(`${d.label}` prints `undefined` when the field is absent). -/
def jsShowStr (o : Option String) : String :=
  match o with
  | some s => s
  | none => "undefined"

/-- One row of the scatter branch:
`` `${d.x},${d.y},${d.label || ''},${d.color || ''}\n` ``. -/
def scatterRow (d : CsvDatum) : String :=
  jsShowNum d.x ++ "," ++ jsShowNum d.y ++ "," ++ d.label.getD "" ++ ","
    ++ d.color.getD "" ++ "\n"

/-- One row of the chart branch:
`` `${d.label},${d.value},${d.color || ''}\n` ``. -/
def chartRow (d : CsvDatum) : String :=
  jsShowStr d.label ++ "," ++ jsShowNum d.value ++ "," ++ d.color.getD ""
    ++ "\n"

/-- A triggered save-to-disk download: content, filename, MIME type
(`ExportManager.downloadFile`). -/
def Download : Type := String × String × String

/-- `ExportManager.exportCSV` (src/src/export-manager.ts:205-235).
Returns the CSV text together with the list of download side effects.
The code returns the empty accumulator on empty input *before* the
download trigger; otherwise it branches on `'x' in data[0]`, appends one
row per datum with `forEach` (modelled by `foldl` on the accumulator), and
triggers a download only when a filename is provided. -/
def exportCSV (data : List CsvDatum) (filename : Option String) :
    String × List Download :=
  match data with
  | [] => ("", [])
  | d0 :: _ =>
    let csvContent :=
      if d0.x.isSome then
        data.foldl (fun acc d => acc ++ scatterRow d) "X,Y,Label,Color\n"
      else
        data.foldl (fun acc d => acc ++ chartRow d) "Label,Value,Color\n"
    match filename with
    | some f => (csvContent, [(csvContent, f, "text/csv")])
    | none => (csvContent, [])

/-- Concatenation of a list of strings, in order. -/
def strJoin : List String → String
  | [] => ""
  | s :: t => s ++ strJoin t

/-- Specification-level scatter CSV: the fixed header followed by one
scatter row per record, in input order. -/
def scatterCSV (data : List CsvDatum) : String :=
  "X,Y,Label,Color\n" ++ strJoin (data.map scatterRow)

/-- Specification-level chart CSV: the fixed header followed by one
chart row per record, in input order. -/
def chartCSV (data : List CsvDatum) : String :=
  "Label,Value,Color\n" ++ strJoin (data.map chartRow)

/-- The header line of a CSV text: everything before the first newline. -/
def csvHeaderLine (s : String) : String :=
  String.mk (s.data.takeWhile (fun c => c ≠ '\n'))

theorem foldl_append_eq_join (f : CsvDatum → String) :
    ∀ (l : List CsvDatum) (s : String),
      l.foldl (fun acc d => acc ++ f d) s = s ++ strJoin (l.map f) := by
  intro l
  induction l with
  | nil => intro s; simp [strJoin]
  | cons d t ih =>
    intro s
    simp only [List.foldl_cons, List.map_cons, strJoin]
    rw [ih, String.append_assoc]

/-- A mixed-shape input: the first record carries `x`, the second does not.
Such an array is outside the `ChartData[] | ScatterData[]` static type but is
accepted by the runtime duck-typing check, which inspects `data[0]` only. -/
def csvMixedExample : List CsvDatum :=
  [⟨some 1, some 2, none, none, none⟩, ⟨none, none, some "a", some 3, none⟩]

/-- C1: exporting `[{label:"Q1",value:120},{label:"Q2",value:180,color:"#10B981"}]`
as CSV yields exactly `"Label,Value,Color\nQ1,120,\nQ2,180,#10B981\n"` —
header line, one row per datum in input order, a missing optional color
serialized as the empty string, every line newline-terminated. -/
theorem C1_csv_chart_example :
    (exportCSV [⟨none, none, some "Q1", some 120, none⟩,
                ⟨none, none, some "Q2", some 180, some "#10B981"⟩] none).fst
      = "Label,Value,Color\nQ1,120,\nQ2,180,#10B981\n" := by
  rfl

/-- C3 counterexample: the claim "if every record carries `x` the header is
`X,Y,Label,Color`; otherwise it is `Label,Value,Color`" fails twice.
On `csvMixedExample` not every record carries `x`, yet the emitted header is
`X,Y,Label,Color` (the code inspects `data[0]` only).  On the empty array
every record vacuously carries `x`, yet the output is the empty string with
no header at all. -/
theorem C3_counterexample :
    (¬ csvMixedExample.all (fun d => d.x.isSome)) ∧
    csvHeaderLine (exportCSV csvMixedExample none).fst = "X,Y,Label,Color" ∧
    "X,Y,Label,Color" ≠ "Label,Value,Color" ∧
    (([] : List CsvDatum).all (fun d => d.x.isSome)) = true ∧
    (exportCSV [] none).fst = "" ∧
    csvHeaderLine (exportCSV [] none).fst ≠ "X,Y,Label,Color" := by
  refine ⟨by decide, by decide, by decide, by decide, rfl, by decide⟩

/-- C3 (amended): exportCSV chooses its output shape by whether the *first*
record carries `x` (on well-typed homogeneous inputs this coincides with
"every record carries `x`"). On empty input it returns the empty string with
no header; otherwise, if the first record carries `x` it emits the
`X,Y,Label,Color` header with one X,Y,Label,Color row per record, and if not
it emits the `Label,Value,Color` header with one Label,Value,Color row per
record. -/
theorem C3_shape_by_first_record (data : List CsvDatum)
    (filename : Option String) :
    (exportCSV data filename).fst =
      match data with
      | [] => ""
      | d :: _ => if d.x.isSome then scatterCSV data else chartCSV data := by
  cases data with
  | nil => cases filename <;> rfl
  | cons d t =>
    simp only [exportCSV, scatterCSV, chartCSV, foldl_append_eq_join]
    cases hx : d.x.isSome <;> cases filename <;> simp [hx]

/-- C10: exportCSV on an empty data array returns the empty string — no
header line — and triggers no download even though a filename was given. -/
theorem C10_empty_csv_no_download :
    exportCSV [] (some "data.csv") = ("", []) := by
  rfl

/-! ## Scatter plot (`ScatterPlot`, src/unnamed/part_003)

Data-space numbers are `Rat`.  The pixel mapping `xScale`/`yScale`
(`d3.scaleLinear().nice()`) is a presentational strictly monotone affine
transform; appended elements are recorded with their data-space coordinates. -/

/-- `ScatterData`: `{x: number, y: number, label?: string, color?: string}`. -/
structure ScatterDatum where
  x : ℚ
  y : ℚ
  label : Option String := none
  color : Option String := none
deriving Repr, DecidableEq

/-- Children appended to the scatter plot's chart group during `render`. -/
inductive SvgElem where
  | grid : SvgElem
  | xAxis : SvgElem
  | yAxis : SvgElem
  | point (d : ScatterDatum) : SvgElem
  | trendSegment (x1 y1 x2 y2 : ℚ) : SvgElem
  | clusterHull (idx : Nat) : SvgElem
deriving Repr, DecidableEq

/-- `options.trendLine` (defaults from `getDefaultOptions`:
`{enabled: false, type: 'linear', ...}`; color/strokeWidth/opacity are
presentational attributes and carry no logic). -/
structure TrendLineOpts where
  enabled : Bool := false
  type : String := "linear"
deriving Repr, DecidableEq

/-- `options.clustering` (defaults `{enabled: false, maxClusters: 5,
showClusterBoundaries: false}`). -/
structure ClusteringOpts where
  enabled : Bool := false
  maxClusters : Nat := 5
  showClusterBoundaries : Bool := false
deriving Repr, DecidableEq

/-- The slice of `ScatterPlotOptions` that drives chart-group structure. -/
structure ScatterOptions where
  showGrid : Bool := true
  trendLine : TrendLineOpts := {}
  clustering : ClusteringOpts := {}
deriving Repr, DecidableEq

namespace ScatterPlot

/-- `this.data.reduce((sum, d) => sum + d.x, 0)`. -/
def sumX (data : List ScatterDatum) : ℚ :=
  data.foldl (fun s d => s + d.x) 0

/-- `this.data.reduce((sum, d) => sum + d.y, 0)`. -/
def sumY (data : List ScatterDatum) : ℚ :=
  data.foldl (fun s d => s + d.y) 0

/-- `this.data.reduce((sum, d) => sum + d.x * d.y, 0)`. -/
def sumXY (data : List ScatterDatum) : ℚ :=
  data.foldl (fun s d => s + d.x * d.y) 0

/-- `this.data.reduce((sum, d) => sum + d.x * d.x, 0)`. -/
def sumXX (data : List ScatterDatum) : ℚ :=
  data.foldl (fun s d => s + d.x * d.x) 0

/-- `renderTrendLine`'s regression slope:
`(n * sumXY - sumX * sumY) / (n * sumXX - sumX * sumX)`. -/
def slope (data : List ScatterDatum) : ℚ :=
  ((data.length : ℚ) * sumXY data - sumX data * sumY data) /
    ((data.length : ℚ) * sumXX data - sumX data * sumX data)

/-- `renderTrendLine`'s regression intercept: `(sumY - slope * sumX) / n`. -/
def intercept (data : List ScatterDatum) : ℚ :=
  (sumY data - slope data * sumX data) / (data.length : ℚ)

/-- First component of `d3.extent(this.data, d => d.x)` on nonempty data
(the minimum x; the empty case never reaches it inside `render`). -/
def xMinOf (data : List ScatterDatum) : ℚ :=
  match data with
  | [] => 0
  | d :: t => t.foldl (fun m e => min m e.x) d.x

/-- Second component of `d3.extent(this.data, d => d.x)` on nonempty data. -/
def xMaxOf (data : List ScatterDatum) : ℚ :=
  match data with
  | [] => 0
  | d :: t => t.foldl (fun m e => max m e.x) d.x

/-- `ScatterPlot.renderTrendLine` (src/unnamed/part_003:473-506): when the
trend-line type is `'linear'` it computes the regression, evaluates it at the
x-extent, and unconditionally appends one line element; endpoints are kept in
data space (the code passes them through `xScale`/`yScale`). There is no
point-count guard. -/
def renderTrendLine (data : List ScatterDatum) (tl : TrendLineOpts) :
    List SvgElem :=
  if tl.type = "linear" then
    [SvgElem.trendSegment
      (xMinOf data) (slope data * xMinOf data + intercept data)
      (xMaxOf data) (slope data * xMaxOf data + intercept data)]
  else
    []

/-- Spec-side OLS slope, transcribed from the spec's formula
`(n·Σxy − Σx·Σy) / (n·Σx² − (Σx)²)`. -/
def specSlope (data : List ScatterDatum) : ℚ :=
  ((data.length : ℚ) * sumXY data - sumX data * sumY data) /
    ((data.length : ℚ) * sumXX data - (sumX data) ^ 2)

/-- Spec-side OLS intercept, transcribed from `(Σy − slope·Σx)/n`. -/
def specIntercept (data : List ScatterDatum) : ℚ :=
  (sumY data - specSlope data * sumX data) / (data.length : ℚ)

/-- The spec's worked trend-line example data set. -/
def exampleTrendData : List ScatterDatum :=
  [⟨0, 0, none, none⟩, ⟨1, 1, none, none⟩, ⟨2, 2, none, none⟩]

end ScatterPlot

/-- C4: for every scatter data set of n ≥ 2 points the trend line's slope is
(n·Σxy − Σx·Σy)/(n·Σx² − (Σx)²) and its intercept is (Σy − slope·Σx)/n over
the full point set; on `[{x:0,y:0},{x:1,y:1},{x:2,y:2}]` the slope is 1, the
intercept is 0, and the rendered line's endpoints are (0,0) and (2,2). -/
theorem C4_trend_line_ols (data : List ScatterDatum) (h : 2 ≤ data.length) :
    ScatterPlot.slope data = ScatterPlot.specSlope data ∧
    ScatterPlot.intercept data = ScatterPlot.specIntercept data ∧
    ScatterPlot.slope ScatterPlot.exampleTrendData = 1 ∧
    ScatterPlot.intercept ScatterPlot.exampleTrendData = 0 ∧
    ScatterPlot.renderTrendLine ScatterPlot.exampleTrendData
        { enabled := true, type := "linear" }
      = [SvgElem.trendSegment 0 0 2 2] := by
  have hs : ScatterPlot.slope data = ScatterPlot.specSlope data := by
    simp [ScatterPlot.slope, ScatterPlot.specSlope, sq]
  have elen : ((ScatterPlot.exampleTrendData.length : Nat) : ℚ) = 3 := by
    norm_num [ScatterPlot.exampleTrendData]
  have ex : ScatterPlot.sumX ScatterPlot.exampleTrendData = 3 := by
    norm_num [ScatterPlot.sumX, ScatterPlot.exampleTrendData]
  have ey : ScatterPlot.sumY ScatterPlot.exampleTrendData = 3 := by
    norm_num [ScatterPlot.sumY, ScatterPlot.exampleTrendData]
  have exy : ScatterPlot.sumXY ScatterPlot.exampleTrendData = 5 := by
    norm_num [ScatterPlot.sumXY, ScatterPlot.exampleTrendData]
  have exx : ScatterPlot.sumXX ScatterPlot.exampleTrendData = 5 := by
    norm_num [ScatterPlot.sumXX, ScatterPlot.exampleTrendData]
  have h1 : ScatterPlot.slope ScatterPlot.exampleTrendData = 1 := by
    simp only [ScatterPlot.slope, elen, ex, ey, exy, exx]
    norm_num
  have h2 : ScatterPlot.intercept ScatterPlot.exampleTrendData = 0 := by
    simp only [ScatterPlot.intercept, elen, ex, ey, h1]
    norm_num
  have xmn : ScatterPlot.xMinOf ScatterPlot.exampleTrendData = 0 := by
    norm_num [ScatterPlot.xMinOf, ScatterPlot.exampleTrendData]
  have xmx : ScatterPlot.xMaxOf ScatterPlot.exampleTrendData = 2 := by
    norm_num [ScatterPlot.xMaxOf, ScatterPlot.exampleTrendData]
  refine ⟨hs, ?_, h1, h2, ?_⟩
  · simp [ScatterPlot.intercept, ScatterPlot.specIntercept, hs]
  · simp only [ScatterPlot.renderTrendLine, h1, h2, xmn, xmx]
    norm_num

/-- C4 witness: the theorem instantiated at the spec's three-point example. -/
theorem C4_trend_line_ols_witness :
    ScatterPlot.slope ScatterPlot.exampleTrendData
        = ScatterPlot.specSlope ScatterPlot.exampleTrendData ∧
    ScatterPlot.slope ScatterPlot.exampleTrendData = 1 ∧
    ScatterPlot.intercept ScatterPlot.exampleTrendData = 0 :=
  ⟨(C4_trend_line_ols ScatterPlot.exampleTrendData (by decide)).1,
   (C4_trend_line_ols ScatterPlot.exampleTrendData (by decide)).2.2.1,
   (C4_trend_line_ols ScatterPlot.exampleTrendData (by decide)).2.2.2.1⟩

namespace ScatterPlot

/-! ### K-means clustering (`ScatterPlot.performClustering`,
src/unnamed/part_003:318-366)

The code compares `Math.sqrt` of sums of squares with strict `<`; since
`Real.sqrt` is strictly monotone on nonnegatives, comparing the squared
distances themselves selects the same centroid (`sqDist_lt_iff_dist_lt`
below). `Math.random()` is injected as an explicit list of chosen indices,
as the spec's test-harness note prescribes. -/

/-- Squared Euclidean distance in the (x, y) plane. -/
def sqDist (p q : ℚ × ℚ) : ℚ :=
  (p.1 - q.1) ^ 2 + (p.2 - q.2) ^ 2

/-- Index of the nearest centroid, scanning with `minDistance = Infinity`
(`none`) and strict `<`, so the earliest minimum wins — exactly the
`centroids.forEach` loop. -/
def nearestIdx (cs : List (ℚ × ℚ)) (p : ℚ × ℚ) : Nat :=
  (cs.enum.foldl
    (fun best ic =>
      let d := sqDist p ic.2
      match best.1 with
      | none => ((some d, ic.1) : Option ℚ × Nat)
      | some m => if d < m then (some d, ic.1) else best)
    ((none, 0) : Option ℚ × Nat)).2

/-- The assignment step: `clusters[clusterIndex].push(index)` for each point
index, starting from `k` empty clusters.  (`List.set` models the in-place
write; indices produced by `nearestIdx` are always in range when `cs` is
nonempty.) -/
def assignClusters (points cs : List (ℚ × ℚ)) : List (List Nat) :=
  points.enum.foldl
    (fun cls ip =>
      let j := nearestIdx cs ip.2
      cls.set j (cls.getD j [] ++ [ip.1]))
    (List.replicate cs.length [])

/-- The update step: an empty cluster becomes `[0, 0]`, otherwise the
centroid is the cluster's coordinate mean.  (`points.getD i (0, 0)` models
`points[index]`; pushed indices are always in range.) -/
def updateCentroids (points : List (ℚ × ℚ)) (cls : List (List Nat)) :
    List (ℚ × ℚ) :=
  cls.map fun cluster =>
    match cluster with
    | [] => ((0 : ℚ), (0 : ℚ))
    | _ =>
      let sx := cluster.foldl (fun s i => s + (points.getD i (0, 0)).1) 0
      let sy := cluster.foldl (fun s i => s + (points.getD i (0, 0)).2) 0
      (sx / (cluster.length : ℚ), sy / (cluster.length : ℚ))

/-- One trip through the `for (let iteration = 0; iteration < 10; ...)` body:
assign every point, update the centroids, remember the assignment in
`finalClusters`. -/
def kmeansIter (points : List (ℚ × ℚ))
    (st : List (ℚ × ℚ) × List (List Nat)) :
    List (ℚ × ℚ) × List (List Nat) :=
  let cls := assignClusters points st.1
  (updateCentroids points cls, cls)

/-- `centroids.push([...points[randomIndex]])` for each drawn index. -/
def initCentroids (points : List (ℚ × ℚ)) (seeds : List Nat) :
    List (ℚ × ℚ) :=
  seeds.map fun i => points.getD i (0, 0)

/-- `ScatterPlot.performClustering` with the random draws made explicit:
`seeds` lists the `k` indices produced by
`Math.floor(Math.random() * points.length)`.  The loop body runs exactly
10 times with no convergence check, and the stored result is the last
iteration's assignment. -/
def performClustering (points : List (ℚ × ℚ)) (seeds : List Nat) :
    List (List Nat) :=
  ((fun st => kmeansIter points st)^[10] (initCentroids points seeds, [])).2

/-- Spec-side single round: assign to nearest centroid, then recompute. -/
def kmeansStep (points : List (ℚ × ℚ)) (cs : List (ℚ × ℚ)) :
    List (ℚ × ℚ) :=
  updateCentroids points (assignClusters points cs)

/-- Comparing `Real.sqrt` of two nonnegative quantities with `<` agrees with
comparing the quantities directly, which justifies `sqDist` replacing the
code's `Math.sqrt(...) < minDistance` scan. -/
theorem sqDist_lt_iff_dist_lt (a b : ℚ) (ha : 0 ≤ a) :
    Real.sqrt (a : ℝ) < Real.sqrt (b : ℝ) ↔ (a : ℝ) < (b : ℝ) :=
  Real.sqrt_lt_sqrt_iff (by exact_mod_cast ha)

theorem kmeansIter_iterate (points : List (ℚ × ℚ)) :
    ∀ (n : Nat) (cs : List (ℚ × ℚ)) (w : List (List Nat)),
      ((fun st => kmeansIter points st)^[n + 1] (cs, w)).2
        = assignClusters points ((kmeansStep points)^[n] cs) := by
  intro n
  induction n with
  | zero => intro cs w; simp [kmeansIter]
  | succ n ih =>
    intro cs w
    rw [Function.iterate_succ_apply]
    have hstep : kmeansIter points (cs, w)
        = (kmeansStep points cs, assignClusters points cs) := rfl
    rw [hstep, ih, Function.iterate_succ_apply]

end ScatterPlot

/-- C5: k-means initializes the k centroids as the k randomly drawn data
points (one per drawn index), then runs exactly 10 rounds of
assign-to-nearest-centroid followed by recompute-centroid-as-cluster-mean
with no early exit — the stored clustering is the assignment against the
9-times-updated centroids — and an empty cluster's centroid becomes (0,0)
for the next round. -/
theorem C5_kmeans_clustering (points : List (ℚ × ℚ)) (seeds : List Nat)
    (hseeds : ∀ i ∈ seeds, i < points.length) :
    ((ScatterPlot.initCentroids points seeds).length = seeds.length ∧
      ∀ c ∈ ScatterPlot.initCentroids points seeds, c ∈ points) ∧
    ScatterPlot.performClustering points seeds
      = ScatterPlot.assignClusters points
          ((ScatterPlot.kmeansStep points)^[9]
            (ScatterPlot.initCentroids points seeds)) ∧
    (∀ (cls : List (List Nat)) (i : Nat), cls[i]? = some [] →
      (ScatterPlot.updateCentroids points cls)[i]? = some (0, 0)) := by
  refine ⟨⟨by simp [ScatterPlot.initCentroids], ?_⟩, ?_, ?_⟩
  · intro c hc
    simp only [ScatterPlot.initCentroids, List.mem_map] at hc
    obtain ⟨i, hi, rfl⟩ := hc
    rw [List.getD_eq_getElem?_getD, List.getElem?_eq_getElem (hseeds i hi)]
    exact List.getElem_mem _
  · exact ScatterPlot.kmeansIter_iterate points 9
      (ScatterPlot.initCentroids points seeds) []
  · intro cls i h
    simp [ScatterPlot.updateCentroids, List.getElem?_map, h]

/-- C5 witness: a concrete two-point, two-seed run, with the seed validity
hypothesis discharged. -/
theorem C5_kmeans_clustering_witness :
    ScatterPlot.performClustering [((0 : ℚ), (0 : ℚ)), ((10 : ℚ), (0 : ℚ))]
        [0, 1]
      = ScatterPlot.assignClusters [((0 : ℚ), (0 : ℚ)), ((10 : ℚ), (0 : ℚ))]
          ((ScatterPlot.kmeansStep
              [((0 : ℚ), (0 : ℚ)), ((10 : ℚ), (0 : ℚ))])^[9]
            (ScatterPlot.initCentroids
              [((0 : ℚ), (0 : ℚ)), ((10 : ℚ), (0 : ℚ))] [0, 1])) :=
  (C5_kmeans_clustering [((0 : ℚ), (0 : ℚ)), ((10 : ℚ), (0 : ℚ))] [0, 1]
    (by decide)).2.1

namespace ScatterPlot

/-- `ScatterPlot.render` (src/unnamed/part_003:142-262), restricted to the
chart-group children it appends.  On empty data it warns and returns,
leaving the prior group contents untouched; otherwise it clears the group
and appends, in order: two grid groups (when `showGrid`), the two axes, one
circle per datum, the trend line (when `trendLine.enabled`), and one hull
path per cluster of more than 2 points (when `clustering.enabled` and
`showClusterBoundaries`; `d3.polygonHull` geometry is presentational).
`seeds` carries the random draws consumed by `performClustering`. -/
def render (data : List ScatterDatum) (opts : ScatterOptions)
    (seeds : List Nat) (prior : List SvgElem) :
    List SvgElem × List String :=
  if data.isEmpty then
    (prior, ["No data available for scatter plot rendering"])
  else
    let els :=
      (if opts.showGrid then [SvgElem.grid, SvgElem.grid] else [])
        ++ [SvgElem.xAxis, SvgElem.yAxis]
        ++ data.map SvgElem.point
        ++ (if opts.trendLine.enabled then renderTrendLine data opts.trendLine
            else [])
        ++ (if opts.clustering.enabled && opts.clustering.showClusterBoundaries
            then
              (performClustering (data.map fun d => (d.x, d.y)) seeds).enum.filterMap
                (fun ic =>
                  if 2 < ic.2.length then some (SvgElem.clusterHull ic.1)
                  else none)
            else [])
    (els, [])

/-- Whether an appended child is the trend-line segment. -/
def isTrendSegment : SvgElem → Bool
  | SvgElem.trendSegment _ _ _ _ => true
  | _ => false

/-- Number of trend-line segments among a group's children. -/
def countTrendSegments (els : List SvgElem) : Nat :=
  els.countP isTrendSegment

theorem countTrendSegments_append (a b : List SvgElem) :
    countTrendSegments (a ++ b)
      = countTrendSegments a + countTrendSegments b := by
  simp [countTrendSegments, List.countP_append]

theorem countTrendSegments_points (data : List ScatterDatum) :
    countTrendSegments (data.map SvgElem.point) = 0 := by
  induction data with
  | nil => rfl
  | cons d t ih =>
    simp only [List.map_cons]
    simpa [countTrendSegments, List.countP_cons, isTrendSegment] using ih

theorem countTrendSegments_hulls (l : List (Nat × List Nat)) :
    countTrendSegments (l.filterMap fun ic =>
      if 2 < ic.2.length then some (SvgElem.clusterHull ic.1) else none)
      = 0 := by
  induction l with
  | nil => rfl
  | cons a t ih =>
    simp only [List.filterMap_cons]
    by_cases h2 : 2 < a.2.length
    · simp only [if_pos h2]
      simpa [countTrendSegments, List.countP_cons, isTrendSegment] using ih
    · simpa only [if_neg h2] using ih

/-- A one-point data set. -/
def onePoint : List ScatterDatum := [⟨1, 2, none, none⟩]

/-- Default scatter options with the linear trend line switched on. -/
def trendOn : ScatterOptions := { trendLine := { enabled := true } }

end ScatterPlot

/-- C2 counterexample: on the 1-point data set `[{x:1,y:2}]` with
`trendLine.enabled`, `render` does append a trend-line element (its
coordinates come from a `0/0` regression), contradicting the claim that
fewer than 2 points produce no trend line. -/
theorem C2_counterexample :
    ScatterPlot.onePoint.length < 2 ∧
    ScatterPlot.countTrendSegments
        (ScatterPlot.render ScatterPlot.onePoint ScatterPlot.trendOn [] []).1
      = 1 := by
  constructor
  · decide
  · simp [ScatterPlot.render, ScatterPlot.onePoint, ScatterPlot.trendOn,
      ScatterPlot.renderTrendLine, ScatterPlot.countTrendSegments,
      ScatterPlot.isTrendSegment]

/-- C2 (amended): rendering a 0-point data set with the trend line enabled
is a warning-only no-op (no elements appended, no error, in particular no
trend line); but rendering a 1-point data set with `trendLine.enabled` and
type `'linear'` appends exactly one trend-line element — the code has no
point-count guard, and the element's coordinates come from a degenerate
`0/0` regression (`NaN` at runtime) — while still raising no error. -/
theorem C2_trend_line_small_data (opts : ScatterOptions) (d : ScatterDatum)
    (seeds : List Nat)
    (h1 : opts.trendLine.enabled = true)
    (h2 : opts.trendLine.type = "linear") :
    ScatterPlot.render [] opts seeds []
      = ([], ["No data available for scatter plot rendering"]) ∧
    ScatterPlot.countTrendSegments
        (ScatterPlot.render [d] opts seeds []).1 = 1 := by
  constructor
  · rfl
  · simp only [ScatterPlot.render, List.isEmpty_cons, Bool.false_eq_true,
      if_false, h1, if_true, ScatterPlot.renderTrendLine, h2, if_pos rfl]
    rw [ScatterPlot.countTrendSegments_append,
      ScatterPlot.countTrendSegments_append,
      ScatterPlot.countTrendSegments_append,
      ScatterPlot.countTrendSegments_append,
      ScatterPlot.countTrendSegments_points]
    cases hg : opts.showGrid <;>
      cases hc : opts.clustering.enabled && opts.clustering.showClusterBoundaries <;>
      simp [ScatterPlot.countTrendSegments, ScatterPlot.isTrendSegment,
        ScatterPlot.countTrendSegments_hulls] <;>
      (intro a x l hm hl he; subst he; rfl)

/-- C2 witness: the amended theorem instantiated at `{x:1,y:2}` with the
default options plus an enabled linear trend line. -/
theorem C2_trend_line_small_data_witness :
    ScatterPlot.render [] ScatterPlot.trendOn [] []
      = ([], ["No data available for scatter plot rendering"]) ∧
    ScatterPlot.countTrendSegments
        (ScatterPlot.render [⟨1, 2, none, none⟩] ScatterPlot.trendOn [] []).1
      = 1 :=
  C2_trend_line_small_data ScatterPlot.trendOn ⟨1, 2, none, none⟩ [] rfl rfl

/-! ## Raster exports (`ExportManager.exportPNG` / `exportSVG` / `exportPDF`,
src/src/export-manager.ts:39-200)

Browser collaborators are reified as booleans: whether
`canvas.getContext('2d')` returns a context, whether the intermediate
image decodes (`img.onload` vs `img.onerror`), whether `canvas.toBlob`
yields a blob, and whether `window.jsPDF` is defined. -/

/-- The rendered vector root: its `getBoundingClientRect()` size and its
`XMLSerializer` text. -/
structure SvgInfo where
  width : ℚ
  height : ℚ
  serialized : String
deriving Repr, DecidableEq

/-- The container the export manager is bound to:
`container.querySelector('svg')` either finds a vector root or not. -/
structure Container where
  svg : Option SvgInfo
deriving Repr, DecidableEq

/-- Availability of the browser/third-party collaborators. -/
structure ExportEnv where
  canvasCtx : Bool
  imageLoads : Bool
  encodeOk : Bool
  jsPDFAvailable : Bool
deriving Repr, DecidableEq

/-- `PNGExportConfig` (format tag omitted; absent optional fields are
`none`). -/
structure PNGExportConfig where
  width : Option ℚ := none
  height : Option ℚ := none
  backgroundColor : Option String := none
  quality : Option ℚ := none
deriving Repr, DecidableEq

/-- `PDFExportConfig`. -/
structure PDFExportConfig where
  width : Option ℚ := none
  height : Option ℚ := none
  title : Option String := none
  author : Option String := none
  subject : Option String := none
deriving Repr, DecidableEq

/-- The PNG blob as far as its observable construction goes: canvas size,
background fill, the `drawImage` placement, and the encode quality. -/
structure PngImage where
  canvasWidth : ℚ
  canvasHeight : ℚ
  background : String
  offsetX : ℚ
  offsetY : ℚ
  scaledWidth : ℚ
  scaledHeight : ℚ
  quality : ℚ
deriving Repr, DecidableEq

/-- `ExportManager.exportPNG` (src/src/export-manager.ts:39-105): defaults
`{width: 800, height: 600, backgroundColor: 'white', quality: 0.9}`; throws
on a missing 2D context, then on a missing vector root; rejects if the SVG
image fails to decode or the final encode yields no blob; otherwise draws
the image scaled by `min(width/svgRect.width, height/svgRect.height)` and
centered. -/
def exportPNG (env : ExportEnv) (c : Container) (cfg : PNGExportConfig) :
    Except String PngImage :=
  let width := cfg.width.getD 800
  let height := cfg.height.getD 600
  let backgroundColor := cfg.backgroundColor.getD "white"
  let quality := cfg.quality.getD (9 / 10)
  if !env.canvasCtx then
    Except.error "Canvas context not available"
  else
    match c.svg with
    | none => Except.error "No SVG element found in container"
    | some svgElement =>
      if !env.imageLoads then
        Except.error "Failed to load SVG as image"
      else
        let scaleX := width / svgElement.width
        let scaleY := height / svgElement.height
        let scale := min scaleX scaleY
        let scaledWidth := svgElement.width * scale
        let scaledHeight := svgElement.height * scale
        let offsetX := (width - scaledWidth) / 2
        let offsetY := (height - scaledHeight) / 2
        if !env.encodeOk then
          Except.error "Failed to create PNG blob"
        else
          Except.ok
            ⟨width, height, backgroundColor, offsetX, offsetY,
              scaledWidth, scaledHeight, quality⟩

/-- The result of `exportSVG`: whether the style block was injected into the
clone, and the serialized text of the (cloned) vector root. -/
structure SvgExport where
  styledClone : Bool
  content : String
deriving Repr, DecidableEq

/-- `ExportManager.exportSVG` (src/src/export-manager.ts:110-130): throws on
a missing vector root, otherwise serializes a clone, prefixing the computed
style block when `includeStyles` (default `true`). -/
def exportSVG (c : Container) (includeStyles : Option Bool) :
    Except String SvgExport :=
  let inc := includeStyles.getD true
  match c.svg with
  | none => Except.error "No SVG element found in container"
  | some svgElement => Except.ok ⟨inc, svgElement.serialized⟩

/-- The produced PDF document: its metadata properties and the placed
image's page rectangle (A4 landscape, millimetres). -/
structure PdfDoc where
  title : String
  author : String
  subject : String
  creator : String
  imgX : ℚ
  imgY : ℚ
  imgWidth : ℚ
  imgHeight : ℚ
deriving Repr, DecidableEq

/-- `ExportManager.exportPDF` (src/src/export-manager.ts:135-200): destructures
only `{width = 800, height = 600, title = 'Chart Export',
author = 'Synerity Charts'}` from the request; throws when `window.jsPDF` is
undefined; reuses `exportPNG`; sets the document properties with the
destructured title/author but a constant subject `'Chart Export'` and
creator `'Synerity Charts'`; then centers the image on a 297×210 page with a
20-unit margin on the constraining axis. -/
def exportPDF (env : ExportEnv) (c : Container) (cfg : PDFExportConfig) :
    Except String PdfDoc :=
  let width := cfg.width.getD 800
  let height := cfg.height.getD 600
  let title := cfg.title.getD "Chart Export"
  let author := cfg.author.getD "Synerity Charts"
  if !env.jsPDFAvailable then
    Except.error "jsPDF library not found. Please include jsPDF in your project."
  else
    match exportPNG env c ⟨some width, some height, none, none⟩ with
    | Except.error e => Except.error e
    | Except.ok png =>
      if !env.imageLoads then
        Except.error "Failed to load PNG image for PDF"
      else
        let pageWidth : ℚ := 297
        let pageHeight : ℚ := 210
        let imgAspectRatio := png.canvasWidth / png.canvasHeight
        let pageAspectRatio := pageWidth / pageHeight
        let fit : ℚ × ℚ :=
          if pageAspectRatio < imgAspectRatio then
            (pageWidth - 20, (pageWidth - 20) / imgAspectRatio)
          else
            ((pageHeight - 20) * imgAspectRatio, pageHeight - 20)
        Except.ok
          ⟨title, author, "Chart Export", "Synerity Charts",
            (pageWidth - fit.1) / 2, (pageHeight - fit.2) / 2, fit.1, fit.2⟩

/-- The `title` metadata of a PDF export, when it succeeded. -/
def pdfTitle (r : Except String PdfDoc) : Option String :=
  match r with
  | Except.ok d => some d.title
  | Except.error _ => none

/-- The `author` metadata of a PDF export, when it succeeded. -/
def pdfAuthor (r : Except String PdfDoc) : Option String :=
  match r with
  | Except.ok d => some d.author
  | Except.error _ => none

/-- The `subject` metadata of a PDF export, when it succeeded. -/
def pdfSubject (r : Except String PdfDoc) : Option String :=
  match r with
  | Except.ok d => some d.subject
  | Except.error _ => none

/-- The `creator` metadata of a PDF export, when it succeeded. -/
def pdfCreator (r : Except String PdfDoc) : Option String :=
  match r with
  | Except.ok d => some d.creator
  | Except.error _ => none

/-- An environment with every collaborator available. -/
def envAllOk : ExportEnv := ⟨true, true, true, true⟩

/-- A container holding a 100×50 rendered vector root. -/
def containerWithSvg : Container := ⟨some ⟨100, 50, "chart"⟩⟩

/-- C6: a PNG export onto a W×H canvas of a vector root of nonzero source
size W0×H0 draws the image at the uniform scale factor min(W/W0, H/H0) and
at the centering offsets ((W − W0·scale)/2, (H − H0·scale)/2); W, H and the
background default to 800, 600 and white. -/
theorem C6_png_scale_and_center (env : ExportEnv) (c : Container)
    (cfg : PNGExportConfig) (s : SvgInfo)
    (hsvg : c.svg = some s) (hctx : env.canvasCtx = true)
    (hload : env.imageLoads = true) (henc : env.encodeOk = true)
    (hw : s.width ≠ 0) (hh : s.height ≠ 0) :
    exportPNG env c cfg =
      Except.ok
        { canvasWidth := cfg.width.getD 800
          canvasHeight := cfg.height.getD 600
          background := cfg.backgroundColor.getD "white"
          offsetX := (cfg.width.getD 800 -
            s.width * min (cfg.width.getD 800 / s.width)
              (cfg.height.getD 600 / s.height)) / 2
          offsetY := (cfg.height.getD 600 -
            s.height * min (cfg.width.getD 800 / s.width)
              (cfg.height.getD 600 / s.height)) / 2
          scaledWidth := s.width * min (cfg.width.getD 800 / s.width)
            (cfg.height.getD 600 / s.height)
          scaledHeight := s.height * min (cfg.width.getD 800 / s.width)
            (cfg.height.getD 600 / s.height)
          quality := cfg.quality.getD (9 / 10) } := by
  simp [exportPNG, hsvg, hctx, hload, henc]

/-- C6 witness: an 800×600 default-config export of the 100×50 root is drawn
at scale min(800/100, 600/50) = 8, size 800×400, at offsets (0, 100), on a
white 800×600 canvas. -/
theorem C6_png_scale_and_center_witness :
    exportPNG envAllOk containerWithSvg {} =
      Except.ok ⟨800, 600, "white", 0, 100, 800, 400, 9 / 10⟩ := by
  have h := C6_png_scale_and_center envAllOk containerWithSvg {}
    ⟨100, 50, "chart"⟩ rfl rfl rfl rfl (by norm_num) (by norm_num)
  rw [h]
  norm_num [min_def]

/-- C7: every export against a container with no rendered vector root fails
with the NotFound-class error 'No SVG element found in container' — for
exportSVG directly, for exportPNG (given an available drawing context), and
for exportPDF (given an available jsPDF), which inherits the failure from
its internal exportPNG call — and never yields a success value. -/
theorem C7_no_svg_fails (env : ExportEnv) (c : Container)
    (inc : Option Bool) (pcfg : PNGExportConfig) (dcfg : PDFExportConfig)
    (hsvg : c.svg = none) (hctx : env.canvasCtx = true)
    (hpdf : env.jsPDFAvailable = true) :
    exportSVG c inc = Except.error "No SVG element found in container" ∧
    exportPNG env c pcfg = Except.error "No SVG element found in container" ∧
    exportPDF env c dcfg = Except.error "No SVG element found in container" := by
  refine ⟨?_, ?_, ?_⟩
  · simp [exportSVG, hsvg]
  · simp [exportPNG, hsvg, hctx]
  · simp [exportPDF, exportPNG, hsvg, hctx, hpdf]

/-- C7 witness: the three failures at a concrete empty container with all
collaborators available. -/
theorem C7_no_svg_fails_witness :
    exportSVG ⟨none⟩ none = Except.error "No SVG element found in container" ∧
    exportPNG envAllOk ⟨none⟩ {} =
      Except.error "No SVG element found in container" ∧
    exportPDF envAllOk ⟨none⟩ {} =
      Except.error "No SVG element found in container" :=
  C7_no_svg_fails envAllOk ⟨none⟩ none {} {} rfl rfl rfl

/-- C8 counterexample: a successful exportPDF ignores the request's subject —
requesting subject "S" produces subject 'Chart Export' — and a request that
omits the title gets default 'Chart Export', not the product name
'Synerity Charts'. -/
theorem C8_counterexample :
    pdfSubject (exportPDF envAllOk containerWithSvg
        ⟨none, none, some "T", some "A", some "S"⟩) = some "Chart Export" ∧
    ("Chart Export" : String) ≠ "S" ∧
    pdfTitle (exportPDF envAllOk containerWithSvg {}) = some "Chart Export" ∧
    ("Chart Export" : String) ≠ "Synerity Charts" := by
  refine ⟨rfl, by decide, rfl, by decide⟩

/-- C8 (amended): for every successful exportPDF call the produced PDF's
title and author equal the request's fields when supplied, the title
defaulting to 'Chart Export' and the author to the product name
'Synerity Charts'; the subject is always 'Chart Export' and the creator
always 'Synerity Charts', regardless of any requested subject. -/
theorem C8_pdf_metadata (env : ExportEnv) (c : Container)
    (cfg : PDFExportConfig) (s : SvgInfo)
    (hsvg : c.svg = some s) (hctx : env.canvasCtx = true)
    (hload : env.imageLoads = true) (henc : env.encodeOk = true)
    (hpdf : env.jsPDFAvailable = true) :
    pdfTitle (exportPDF env c cfg) = some (cfg.title.getD "Chart Export") ∧
    pdfAuthor (exportPDF env c cfg) =
      some (cfg.author.getD "Synerity Charts") ∧
    pdfSubject (exportPDF env c cfg) = some "Chart Export" ∧
    pdfCreator (exportPDF env c cfg) = some "Synerity Charts" := by
  refine ⟨?_, ?_, ?_, ?_⟩ <;>
    simp [exportPDF, exportPNG, hsvg, hctx, hload, henc, hpdf,
      pdfTitle, pdfAuthor, pdfSubject, pdfCreator]

/-- C8 witness: the amended metadata contract at a concrete request that
supplies all three fields. -/
theorem C8_pdf_metadata_witness :
    pdfTitle (exportPDF envAllOk containerWithSvg
        ⟨none, none, some "T", some "A", some "S"⟩) = some "T" ∧
    pdfAuthor (exportPDF envAllOk containerWithSvg
        ⟨none, none, some "T", some "A", some "S"⟩) = some "A" ∧
    pdfSubject (exportPDF envAllOk containerWithSvg
        ⟨none, none, some "T", some "A", some "S"⟩) = some "Chart Export" ∧
    pdfCreator (exportPDF envAllOk containerWithSvg
        ⟨none, none, some "T", some "A", some "S"⟩) =
      some "Synerity Charts" :=
  C8_pdf_metadata envAllOk containerWithSvg
    ⟨none, none, some "T", some "A", some "S"⟩ ⟨100, 50, "chart"⟩
    rfl rfl rfl rfl rfl

/-! ## Pie chart (`PieChart.render`, src/src/pie-chart.ts:127-138)

`render` contains no throw statement: both degenerate branches log and
return before the group-clearing step, so the chart group keeps its prior
children (empty on a first render). -/

/-- `ChartData`: `{label: string, value: number, color?: string}`. -/
structure PieDatum where
  label : String
  value : ℚ
  color : Option String := none
deriving Repr, DecidableEq

/-- A slice appended by the pie generator: `d3.pie().sort(null)` assigns each
datum the cumulative arc from `startFrac` to `endFrac`, recorded as fractions
of the full turn (the code scales them by 2π; arc radii and label placement
are presentational). -/
structure PieSlice where
  label : String
  value : ℚ
  startFrac : ℚ
  endFrac : ℚ
deriving Repr, DecidableEq

namespace PieChart

/-- The slices of `d3.pie().value(d => d.value).sort(null)` applied to the
data, as cumulative fractions of `total`. -/
def pieSlices (data : List PieDatum) (total : ℚ) : List PieSlice :=
  (data.foldl
    (fun acc d =>
      (acc.1 ++ [⟨d.label, d.value, acc.2, acc.2 + d.value / total⟩],
        acc.2 + d.value / total))
    (([], 0) : List PieSlice × ℚ)).1

/-- `PieChart.render` over the chart group's prior children: empty data warns
and returns; a total ≤ 0 logs the error and returns; only otherwise is the
group cleared and repopulated with one slice per datum.  Result: the group's
children, the warnings, and the errors. -/
def render (prior : List PieSlice) (data : List PieDatum) :
    List PieSlice × List String × List String :=
  if data.isEmpty then
    (prior, ["No data available for pie chart rendering"], [])
  else
    let totalValue := data.foldl (fun sum d => sum + d.value) 0
    if totalValue ≤ 0 then
      (prior, [], ["Total value is zero or negative, cannot render pie chart"])
    else
      (pieSlices data totalValue, [], [])

end PieChart

/-- C9: rendering a non-empty pie data set whose values sum to ≤ 0 does not
throw: it emits the diagnostic 'Total value is zero or negative, cannot
render pie chart' and renders nothing, leaving the (initially empty) chart
group empty. -/
theorem C9_pie_nonpositive_total (data : List PieDatum)
    (hne : data ≠ [])
    (htot : data.foldl (fun sum d => sum + d.value) 0 ≤ 0) :
    PieChart.render [] data =
      ([], [], ["Total value is zero or negative, cannot render pie chart"]) := by
  match data, hne with
  | d :: t, _ =>
    simp only [PieChart.render, List.isEmpty_cons, Bool.false_eq_true,
      if_false]
    rw [if_pos htot]

/-- C9 witness: the data set `[{A, -1}, {B, 1}]` has total 0 and renders to
an empty group with the single diagnostic. -/
theorem C9_pie_nonpositive_total_witness :
    PieChart.render [] [⟨"A", -1, none⟩, ⟨"B", 1, none⟩] =
      ([], [], ["Total value is zero or negative, cannot render pie chart"]) :=
  C9_pie_nonpositive_total [⟨"A", -1, none⟩, ⟨"B", 1, none⟩]
    (by decide) (by norm_num)

end Charts
